import Mathlib

/-!
Verification development for the UpServer backend core:
the request-triage policy engine (`RequestTriageService.evaluate`),
the staging-server lifecycle manager (`DevServerService.start` /
`stop` / `getStatus`), the publish/rollback controller
(`PublishService.publish` / `rollbackToCommit`) and the review-queue
endpoints (customer approve, admin status update).

Each TypeScript function is shallowly embedded as an executable Lean
definition.  External effects (TCP probes, OS process liveness, git
command outcomes, database rows) are passed in explicitly as oracle
parameters, and each embedded operation returns both its result and
the externally observable effects (persisted record, git mutations,
kill signals) so that frame conditions can be stated.
-/

/- ===================== Triage engine ===================== -/

inductive TriageDecision
  | auto
  | flag
deriving DecidableEq, Repr

inductive TriageScope
  | minor
  | major
  | uncertain
deriving DecidableEq, Repr

structure TriageResult where
  decision : TriageDecision
  scope : TriageScope
  confidence : ℚ
  reason : String
  triggers : List String
  policyVersion : String
deriving DecidableEq, Repr

structure EvaluateInput where
  request : String
  filesModified : Option (List String)
  agentCompletedSuccessfully : Bool
  agentHadError : Bool
deriving DecidableEq, Repr

/-- ASCII lower-casing of a character (what `toLowerCase` and the regex `i`
flag amount to on the ASCII inputs this policy deals in). -/
def lowerChar (c : Char) : Char :=
  if 'A' ≤ c && c ≤ 'Z' then Char.ofNat (c.toNat + 32) else c

/-- Whitespace test used by `String.prototype.trim`. -/
def isJsWhitespace (c : Char) : Bool :=
  c.isWhitespace

/-- `String.prototype.trim`: strip leading and trailing whitespace. -/
def jsTrim (s : String) : String :=
  String.mk ((((s.data.dropWhile isJsWhitespace).reverse.dropWhile isJsWhitespace).reverse))

/-- JavaScript word character (the regex `\w` class): ASCII letter, digit or underscore. -/
def isWordChar (c : Char) : Bool :=
  c.isAlphanum || c == '_'

/-- Whether the pattern `p` is a prefix of the character list `l`. -/
def startsWithChars : List Char → List Char → Bool
  | [], _ => true
  | _ :: _, [] => false
  | p :: ps, c :: cs => p == c && startsWithChars ps cs

/-- At the current position (with `prev` the preceding character, if any),
does some alternative of the word-bounded group match?  This models a JS
regex `\b(w1|w2|…)\b` where every alternative begins and ends with a word
character: the group must be preceded by start-of-string or a non-word
character and followed by end-of-string or a non-word character. -/
def altMatchHere (alts : List (List Char)) (prev : Option Char) (l : List Char) : Bool :=
  alts.any fun w =>
    (match prev with
      | none => true
      | some c => !isWordChar c)
    && startsWithChars w l
    && (match l.drop w.length with
      | [] => true
      | c :: _ => !isWordChar c)

/-- Scan every position of `l` for a word-bounded occurrence of one of the
alternatives (`prev` is the character just before the current position). -/
def wordBoundedScan (alts : List (List Char)) (prev : Option Char) : List Char → Bool
  | [] => altMatchHere alts prev []
  | c :: cs => altMatchHere alts prev (c :: cs) || wordBoundedScan alts (some c) cs

/-- `RegExp.test` for a case-insensitive pattern of the form `\b(a1|a2|…)\b`
whose alternatives are plain words (spelled out; `sign[ -]?in` is expanded to
its three concrete alternatives). -/
def testWordAlts (alts : List String) (s : String) : Bool :=
  wordBoundedScan (alts.map fun a => a.data.map lowerChar) none (s.data.map lowerChar)

/-- One entry of `MAJOR_REQUEST_PATTERNS`: the regex source text (used in the
`major_intent:` trigger) together with its word alternatives. -/
structure MajorPattern where
  source : String
  alts : List String
deriving DecidableEq, Repr

/-- The `MAJOR_REQUEST_PATTERNS` array from `RequestTriageService.ts`. -/
def MAJOR_REQUEST_PATTERNS : List MajorPattern :=
  [ ⟨"\\b(booking system|appointment system|reservation system)\\b",
      ["booking system", "appointment system", "reservation system"]⟩,
    ⟨"\\b(payment|checkout|stripe|subscription|billing)\\b",
      ["payment", "checkout", "stripe", "subscription", "billing"]⟩,
    ⟨"\\b(login|sign[ -]?in|authentication|auth)\\b",
      ["login", "signin", "sign in", "sign-in", "authentication", "auth"]⟩,
    ⟨"\\b(database|schema|migration|api endpoint|backend)\\b",
      ["database", "schema", "migration", "api endpoint", "backend"]⟩,
    ⟨"\\b(redesign|rebuild|complete overhaul|new layout)\\b",
      ["redesign", "rebuild", "complete overhaul", "new layout"]⟩,
    ⟨"\\b(integration|webhook|crm|erp)\\b",
      ["integration", "webhook", "crm", "erp"]⟩ ]

/-- `RegExp.test` for `/(^|\/)\.env(\.|$)/i` at the current position:
".env" followed by a dot or end of string. -/
def dotEnvAt (l : List Char) : Bool :=
  startsWithChars ".env".data l &&
    (match l.drop 4 with
      | [] => true
      | c :: _ => c == '.')

/-- `/(^|\/)package\.json$/i` at the current position: exactly "package.json"
up to the end of the string. -/
def packageJsonAt (l : List Char) : Bool :=
  l == "package.json".data

/-- `/(^|\/)(vite|webpack|tsconfig|next|nuxt|astro)\.config/i` at the current
position. -/
def configAt (l : List Char) : Bool :=
  ["vite.config", "webpack.config", "tsconfig.config", "next.config",
   "nuxt.config", "astro.config"].any fun w => startsWithChars w.data l

/-- `/(^|\/)(server|backend|api|functions?)\//i` at the current position. -/
def serverDirAt (l : List Char) : Bool :=
  ["server/", "backend/", "api/", "function/", "functions/"].any fun w =>
    startsWithChars w.data l

/-- `/(^|\/)(routes?|router)\//i` at the current position. -/
def routesDirAt (l : List Char) : Bool :=
  ["route/", "routes/", "router/"].any fun w => startsWithChars w.data l

/-- Anchor `(^|\/)`: the position-local predicate `p` holds at the start of
the list or immediately after some '/' character. -/
def afterSlashScan (p : List Char → Bool) : List Char → Bool
  | [] => false
  | c :: cs => (c == '/' && p cs) || afterSlashScan p cs

def matchAnchored (p : List Char → Bool) (l : List Char) : Bool :=
  p l || afterSlashScan p l

/-- `HIGH_RISK_FILE_PATTERNS.some(pattern => pattern.test(path))` from
`RequestTriageService.ts` (all five patterns are case-insensitive and
anchored at start-of-string or after a '/'by `(^|\/)`). -/
def isHighRiskFile (path : String) : Bool :=
  let l := path.data.map lowerChar
  matchAnchored dotEnvAt l || matchAnchored packageJsonAt l ||
  matchAnchored configAt l || matchAnchored serverDirAt l ||
  matchAnchored routesDirAt l

/-- The trigger accumulation of steps 4-6 of `RequestTriageService.evaluate`
(major-intent patterns, wide file set, high-risk files), in source order. -/
def contentTriggers (normalizedRequest : String) (filesModified : List String) : List String :=
  let majorTriggers :=
    match MAJOR_REQUEST_PATTERNS.find? (fun p => testWordAlts p.alts normalizedRequest) with
    | some p => ["major_intent:" ++ p.source]
    | none => []
  let wideTriggers := if filesModified.length > 8 then ["wide_file_change_set"] else []
  let riskTriggers :=
    match filesModified.find? isHighRiskFile with
    | some path => ["high_risk_file:" ++ path]
    | none => []
  majorTriggers ++ wideTriggers ++ riskTriggers

/-- `RequestTriageService.evaluate` from
`src/backend/src/services/RequestTriageService.ts`. -/
def evaluate (input : EvaluateInput) : TriageResult :=
  let normalizedRequest := jsTrim input.request
  let filesModified := input.filesModified.getD []
  if input.agentHadError then
    { decision := .flag
      scope := .uncertain
      confidence := 97/100
      reason := "The assistant encountered an error and could not complete the request cleanly, so manual review is required."
      triggers := ["agent_execution_error"]
      policyVersion := "v1" }
  else if !input.agentCompletedSuccessfully && filesModified.length == 0 then
    { decision := .flag
      scope := .uncertain
      confidence := 9/10
      reason := "The assistant did not complete successfully and made no file changes, so manual review is required."
      triggers := ["agent_incomplete_no_edits"]
      policyVersion := "v1" }
  else if normalizedRequest == "" then
    { decision := .flag
      scope := .uncertain
      confidence := 9/10
      reason := "The request content is empty or invalid and needs manual handling."
      triggers := ["empty_request"]
      policyVersion := "v1" }
  else
    let triggers := contentTriggers normalizedRequest filesModified
    if triggers.length > 0 then
      let isUncertain := triggers.contains "agent_execution_error"
      { decision := .flag
        scope := if isUncertain then .uncertain else .major
        confidence := if isUncertain then 97/100 else 84/100
        reason := "This request exceeds the safe auto-edit policy and should be reviewed before billing and implementation."
        triggers := triggers
        policyVersion := "v1" }
    else
      { decision := .auto
        scope := .minor
        confidence := 92/100
        reason := "Request appears to be a small, low-risk website content or styling update."
        triggers := triggers
        policyVersion := "v1" }

/- ===================== Staging-server lifecycle manager ===================== -/

/-- Persisted status column of the `devServers` table. -/
inductive DevStatus
  | stopped
  | starting
  | running
  | error
deriving DecidableEq, Repr

/-- One row of the `devServers` table (timestamps as abstract instants). -/
structure DevServerRecord where
  port : Nat
  pid : Option Nat
  status : DevStatus
  startedAt : Nat
  lastActivity : Nat
deriving DecidableEq, Repr

/-- `pid ? isProcessAlive(pid) : false` — JavaScript truthiness on the pid
column (null and 0 are falsy) guarding the `process.kill(pid, 0)` probe. -/
def aliveIfTruthy (processAlive : Nat → Bool) : Option Nat → Bool
  | none => false
  | some p => if p == 0 then false else processAlive p

/-- JavaScript truthiness of the pid column (`server.pid && …`). -/
def pidTruthy : Option Nat → Bool
  | none => false
  | some p => !(p == 0)

/-- JavaScript truthiness of `customer.stagingPort` (`if (desiredPort)`):
null and 0 both mean "no fixed port configured". -/
def truthyPort : Option Nat → Option Nat
  | none => none
  | some d => if d == 0 then none else some d

/-- The environment a single `DevServerService.start` call runs in: the
in-flight marker, database rows, filesystem facts, and the outcomes of every
external probe or subprocess the call makes, each passed as an oracle. -/
structure StartEnv where
  startInFlight : Bool
  customerExists : Bool
  stagingPort : Option Nat
  siteExists : Bool
  record : Option DevServerRecord
  processAlive : Nat → Bool
  portReachable : Nat → Bool
  rangeStart : Nat
  rangeEnd : Nat
  freeScanResult : Option Nat
  isNodeProject : Bool
  nodeModulesMissing : Bool
  installSucceeds : Bool
  spawnedPid : Nat
  becomesReady : Bool
  now : Nat

/-- The typed errors `DevServerService.start` can throw (each is a thrown
`Error` with a fixed message shape in the source). -/
inductive StartError
  | startInProgress
  | customerNotFound
  | siteNotFound
  | portOutOfRange
  | portInUse
  | noFreePorts
  | dependencyInstallFailed
  | devServerNotReady
deriving DecidableEq, Repr

/-- Result of `DevServerService.start`: either the returned
`\x7b port, url, status \x7d` object (url is determined by the port) or a thrown
error. -/
inductive StartOutcome
  | ok (port : Nat) (status : String)
  | err (e : StartError)
deriving DecidableEq, Repr

/-- Steps 7-9 of `start` after a port has been allocated: persist
`status=starting` with `pid=null`, install dependencies if needed, spawn the
child, persist `status=starting` with the child pid, poll for readiness, and
only on success persist `status=running`.  A thrown install failure or
readiness timeout leaves the last persisted record in place. -/
def startSpawn (env : StartEnv) (port : Nat) : StartOutcome × Option DevServerRecord :=
  let rec1 : DevServerRecord :=
    { port := port, pid := none, status := DevStatus.starting,
      startedAt := env.now, lastActivity := env.now }
  if env.isNodeProject && env.nodeModulesMissing && !env.installSucceeds then
    (.err .dependencyInstallFailed, some rec1)
  else
    let rec2 : DevServerRecord :=
      { port := port, pid := some env.spawnedPid, status := DevStatus.starting,
        startedAt := env.now, lastActivity := env.now }
    if !env.becomesReady then
      (.err .devServerNotReady, some rec2)
    else
      (.ok port "started",
        some { rec2 with status := DevStatus.running, lastActivity := env.now })

/-- Step 6 of `start`: resolve the target port.  A truthy configured
`stagingPort` must lie in the tunnel range and answer to no current listener;
otherwise the first free port of the scan range is taken. -/
def startWithPort (env : StartEnv) (dbRec : Option DevServerRecord) :
    StartOutcome × Option DevServerRecord :=
  match truthyPort env.stagingPort with
  | some desired =>
    if desired < env.rangeStart || env.rangeEnd < desired then
      (.err .portOutOfRange, dbRec)
    else if env.portReachable desired then
      (.err .portInUse, dbRec)
    else startSpawn env desired
  | none =>
    match env.freeScanResult with
    | some p => startSpawn env p
    | none => (.err .noFreePorts, dbRec)

/-- The re-read guard after the stale-state reset ("Re-check after stale
status reset above"): if the record now reads `running`, return
`already_running` instead of racing a second spawn. -/
def startRecheck (env : StartEnv) (dbRec : Option DevServerRecord) :
    StartOutcome × Option DevServerRecord :=
  match dbRec with
  | some r2 =>
    if r2.status = DevStatus.running then (.ok r2.port "already_running", dbRec)
    else startWithPort env dbRec
  | none => startWithPort env dbRec

/-- `DevServerService.start` from `src/backend/src/services/DevServerService.ts`:
in-flight marker, customer and site-folder checks, early return on a
`starting` record, liveness re-validation (and stale-state reset) on a
`running` record, then port allocation, spawn and readiness poll.
The second component is the `devServers` row as persisted when the call
returns or throws. -/
def start (env : StartEnv) : StartOutcome × Option DevServerRecord :=
  if env.startInFlight then (.err .startInProgress, env.record)
  else if !env.customerExists then (.err .customerNotFound, env.record)
  else if !env.siteExists then (.err .siteNotFound, env.record)
  else
    match env.record with
    | some r =>
      if r.status = DevStatus.starting then (.ok r.port "starting", env.record)
      else if r.status = DevStatus.running then
        let alive := aliveIfTruthy env.processAlive r.pid
        let reachable := env.portReachable r.port
        if alive && reachable then (.ok r.port "already_running", env.record)
        else
          startRecheck env (some { r with status := DevStatus.stopped, pid := none })
      else startRecheck env (some r)
    | none => startRecheck env none

/-- Output of `DevServerService.stop`: the returned status string, the
persisted record afterwards, and whether a `treeKill` signal was issued to
the OS. -/
structure StopOutput where
  result : String
  record : Option DevServerRecord
  killIssued : Bool
deriving DecidableEq, Repr

/-- `DevServerService.stop`: the process tree is killed only when the record
is `running` with a truthy pid AND an in-memory child-process handle exists
in `runningProcesses`; in every non-`not_found` path the record is set to
`stopped` with the pid cleared. -/
def stop (handlePresent : Bool) : Option DevServerRecord → StopOutput
  | none => ⟨"not_found", none, false⟩
  | some server =>
    if pidTruthy server.pid && server.status == DevStatus.running then
      if handlePresent then
        ⟨"stopped", some { server with status := DevStatus.stopped, pid := none }, true⟩
      else
        ⟨"stopped", some { server with status := DevStatus.stopped, pid := none }, false⟩
    else
      ⟨"stopped", some { server with status := DevStatus.stopped, pid := none }, false⟩

/-- The OS-level oracles a `getStatus` call consults: process liveness
(`process.kill(pid, 0)`) and TCP reachability of the tracked port. -/
structure OsWorld where
  processAlive : Nat → Bool
  portReachable : Nat → Bool

/-- `DevServerService.getStatus`: a `starting` record is advanced to
`running` when the port answers, to `error` (pid cleared) when it does not
answer and the process is dead; a `running` record is demoted to `stopped`
(pid cleared) unless the process is alive and the port answers.  Returns the
record handed back to the caller and the record as persisted afterwards. -/
def getStatus (w : OsWorld) (now : Nat) :
    Option DevServerRecord → Option DevServerRecord × Option DevServerRecord
  | none => (none, none)
  | some r =>
    if r.status = DevStatus.starting then
      let alive := aliveIfTruthy w.processAlive r.pid
      let reachable := w.portReachable r.port
      if reachable then
        let r2 := { r with status := DevStatus.running, lastActivity := now }
        (some r2, some r2)
      else if !alive then
        let r2 := { r with status := DevStatus.error, pid := none }
        (some r2, some r2)
      else (some r, some r)
    else if r.status = DevStatus.running then
      let alive := aliveIfTruthy w.processAlive r.pid
      let reachable := w.portReachable r.port
      if !alive || !reachable then
        let r2 := { r with status := DevStatus.stopped, pid := none }
        (some r2, some r2)
      else (some r, some r)
    else (some r, some r)

/- ===================== Publish / Rollback controller ===================== -/

/-- `slice(0, 7)` on a commit hash. -/
def jsSlice7 (s : String) : String :=
  String.mk (s.data.take 7)

/-- One character of `/^[a-f0-9]\x7b7,40\x7d$/i`. -/
def isHexDigitChar (c : Char) : Bool :=
  c.isDigit || ('a' ≤ c && c ≤ 'f') || ('A' ≤ c && c ≤ 'F')

/-- `/^[a-f0-9]\x7b7,40\x7d$/i.test(targetCommitHash)`. -/
def isValidCommitHash (s : String) : Bool :=
  7 ≤ s.length && s.length ≤ 40 && s.data.all isHexDigitChar

/-- Git-side state a `PublishService` call observes: the `git status
--porcelain` output before the call, HEAD, whether the target commit
resolves, the porcelain output after a `git restore`, the new HEAD after
committing, whether `git push` succeeds, and the message of a failing git
command. -/
structure GitRepoState where
  porcelain : String
  headHash : String
  commitExists : Bool
  porcelainAfterRestore : String
  newHeadAfterCommit : String
  pushSucceeds : Bool
  gitErrorMessage : String
deriving DecidableEq, Repr

/-- The git commands that mutate the repository (the porcelain status reads
and `rev-parse` lookups are read-only and not listed). -/
inductive GitMutation
  | stageAll
  | restore
  | commitCmd
  | push
deriving DecidableEq, Repr

/-- Shape of the object `rollbackToCommit` and `publish` return. -/
structure GitOpResult where
  success : Bool
  message : String
  commitHash : Option String
  rolledBackTo : Option String
  warning : Option String
deriving DecidableEq, Repr

/-- `PublishService.rollbackToCommit` from
`src/backend/src/services/PublishService.ts`: hash-format guard, dirty-tree
guard, target-commit existence (a failing `rev-parse --verify` is caught by
the outer handler), no-op when the target already is HEAD, then restore,
commit and push.  The second component lists the mutating git commands
executed. -/
def rollbackToCommit (g : GitRepoState) (target : String) : GitOpResult × List GitMutation :=
  if target = "" || !isValidCommitHash target then
    (⟨false, "Invalid commit hash", none, none, none⟩, [])
  else if !(jsTrim g.porcelain == "") then
    (⟨false, "Rollback is blocked because there are unpublished local changes. Publish or clear local changes first.",
      none, none, none⟩, [])
  else if !g.commitExists then
    (⟨false, "Failed to roll back changes: " ++ g.gitErrorMessage, none, none, none⟩, [])
  else if g.headHash == target then
    (⟨false, "This version is already current. Nothing to roll back.", none, none, none⟩, [])
  else if jsTrim g.porcelainAfterRestore == "" then
    (⟨false, "Rollback produced no file changes.", none, none, none⟩, [.restore])
  else if !g.pushSucceeds then
    (⟨false, "Failed to roll back changes: " ++ g.gitErrorMessage, none, none, none⟩,
      [.restore, .commitCmd, .push])
  else
    (⟨true, "Rolled back successfully to " ++ jsSlice7 target ++ ".",
      some g.newHeadAfterCommit, some target, none⟩, [.restore, .commitCmd, .push])

/-- `PublishService.publish`: a clean working tree short-circuits with
`success=false` / "No changes to publish"; otherwise stage, commit and push,
where a push failure still reports `success=true` with the `push_failed`
warning.  The second component lists the mutating git commands executed. -/
def publish (g : GitRepoState) : GitOpResult × List GitMutation :=
  if jsTrim g.porcelain == "" then
    (⟨false, "No changes to publish", none, none, none⟩, [])
  else if !g.pushSucceeds then
    (⟨true, "Changes committed locally (" ++ jsSlice7 g.newHeadAfterCommit ++
        ") but push failed. You may need to push manually or check your git configuration.",
      some g.newHeadAfterCommit, none, some "push_failed"⟩, [.stageAll, .commitCmd, .push])
  else
    (⟨true, "Changes published successfully! Commit: " ++ jsSlice7 g.newHeadAfterCommit,
      some g.newHeadAfterCommit, none, none⟩, [.stageAll, .commitCmd, .push])

/- ===================== Review queue endpoints ===================== -/

/-- The `status` column of the `reviewRequests` table (`open` is spelled
`open_` because `open` is a Lean keyword). -/
inductive ReviewStatus
  | open_
  | quoted
  | approved
  | rejected
  | completed
deriving DecidableEq, Repr

/-- One row of the `reviewRequests` table (the fields the two status
endpoints read or write). -/
structure ReviewRecord where
  status : ReviewStatus
  quotedPriceCents : Option Nat
  approvedAt : Option Nat
  updatedAt : Nat
deriving DecidableEq, Repr

/-- Outcome of `POST /api/customer/review-requests/:id/approve`. -/
inductive ApproveOutcome
  | notFound
  | onlyQuotedError
  | approvedOk
deriving DecidableEq, Repr

/-- The customer approve endpoint from `devserver.routes.ts`
(`POST /review-requests/:id/approve`): 404 when the row is missing, 400
"Only quoted requests can be approved" unless the status is `quoted`,
otherwise set `approved` with the approval timestamp. -/
def customerApprove (dbRec : Option ReviewRecord) (now : Nat) :
    ApproveOutcome × Option ReviewRecord :=
  match dbRec with
  | none => (.notFound, none)
  | some r =>
    if r.status ≠ ReviewStatus.quoted then (.onlyQuotedError, some r)
    else (.approvedOk,
      some { r with status := ReviewStatus.approved, approvedAt := some now, updatedAt := now })

/-- Membership test against `allowedStatuses` in the admin status endpoint,
returning the parsed status. -/
def parseStatus : String → Option ReviewStatus
  | "open" => some .open_
  | "quoted" => some .quoted
  | "approved" => some .approved
  | "rejected" => some .rejected
  | "completed" => some .completed
  | _ => none

/-- Outcome of `PUT /api/admin/reviews/:id/status`. -/
inductive AdminStatusOutcome
  | invalidStatusValue
  | notFound
  | updated
deriving DecidableEq, Repr

/-- The admin status endpoint from `admin.routes.ts`
(`PUT /reviews/:id/status`): 400 on a missing or unknown status value, 404
on a missing row, and otherwise an unconditional update to the requested
status — the current status is never consulted. -/
def adminSetStatus (dbRec : Option ReviewRecord) (reqStatus : Option String) (now : Nat) :
    AdminStatusOutcome × Option ReviewRecord :=
  match reqStatus with
  | none => (.invalidStatusValue, dbRec)
  | some s =>
    match parseStatus s with
    | none => (.invalidStatusValue, dbRec)
    | some st =>
      match dbRec with
      | none => (.notFound, none)
      | some r => (.updated, some { r with status := st, updatedAt := now })

/- ===================== Concrete fixtures ===================== -/

/-- A triage input where the agent reported an execution error. -/
def inputAgentError : EvaluateInput :=
  { request := "please update the banner", filesModified := some ["index.html"],
    agentCompletedSuccessfully := true, agentHadError := true }

/-- The high-risk-file scenario input from the spec: innocuous request text
but a touched file under a server/routes directory. -/
def inputHighRisk : EvaluateInput :=
  { request := "fix typo in footer", filesModified := some ["src/server/routes/auth.ts"],
    agentCompletedSuccessfully := true, agentHadError := false }

/-- A persisted record that claims `running` on port 3005 with pid 7. -/
def recRunning3005 : DevServerRecord :=
  { port := 3005, pid := some 7, status := DevStatus.running, startedAt := 0, lastActivity := 0 }

/-- A persisted record still at `starting` on port 3005 with pid 7. -/
def recStarting3005 : DevServerRecord :=
  { port := 3005, pid := some 7, status := DevStatus.starting, startedAt := 0, lastActivity := 0 }

/-- A start environment for a fixed-port customer with no existing record in
which everything succeeds except the readiness poll, which times out. -/
def envReadyTimeout : StartEnv :=
  { startInFlight := false, customerExists := true, stagingPort := some 3005,
    siteExists := true, record := none,
    processAlive := fun _ => true, portReachable := fun _ => false,
    rangeStart := 3000, rangeEnd := 3050, freeScanResult := some 3000,
    isNodeProject := true, nodeModulesMissing := false, installSucceeds := true,
    spawnedPid := 444, becomesReady := false, now := 100 }

/-- A start environment for a fixed-port customer whose own staging server is
already live on the fixed port (process 7 alive, port 3005 answering). -/
def envFixedPortLive : StartEnv :=
  { startInFlight := false, customerExists := true, stagingPort := some 3005,
    siteExists := true, record := some recRunning3005,
    processAlive := fun p => p == 7, portReachable := fun q => q == 3005,
    rangeStart := 3000, rangeEnd := 3050, freeScanResult := some 3000,
    isNodeProject := true, nodeModulesMissing := false, installSucceeds := true,
    spawnedPid := 444, becomesReady := true, now := 100 }

/-- A start environment for a fixed-port customer where port 3005 is free and
the spawned server becomes ready. -/
def envFixedPortFree : StartEnv :=
  { startInFlight := false, customerExists := true, stagingPort := some 3005,
    siteExists := true, record := none,
    processAlive := fun _ => true, portReachable := fun _ => false,
    rangeStart := 3000, rangeEnd := 3050, freeScanResult := some 3000,
    isNodeProject := true, nodeModulesMissing := false, installSucceeds := true,
    spawnedPid := 444, becomesReady := true, now := 100 }

/-- An OS world where every process probe fails and every port answers (for
example a foreign process has taken the port after the tracked child died). -/
def worldDeadButReachable : OsWorld :=
  { processAlive := fun _ => false, portReachable := fun _ => true }

/-- An OS world where every process probe succeeds and every port answers. -/
def worldAliveReachable : OsWorld :=
  { processAlive := fun _ => true, portReachable := fun _ => true }

/-- A git state with uncommitted local changes. -/
def gitDirty : GitRepoState :=
  { porcelain := " M index.html", headHash := "aaaaaaaaaaaaaaaaaaaaaaaaaaaaaaaaaaaaaaaa",
    commitExists := true, porcelainAfterRestore := " M index.html",
    newHeadAfterCommit := "bbbbbbbbbbbbbbbbbbbbbbbbbbbbbbbbbbbbbbbb",
    pushSucceeds := true, gitErrorMessage := "exec failed" }

/-- A clean git state whose HEAD is the commit `0123abc`. -/
def gitCleanAtHead : GitRepoState :=
  { porcelain := "", headHash := "0123abc",
    commitExists := true, porcelainAfterRestore := "",
    newHeadAfterCommit := "0123abc",
    pushSucceeds := true, gitErrorMessage := "exec failed" }

/-- A clean git state (whitespace-only porcelain output) for publish. -/
def gitCleanPublish : GitRepoState :=
  { porcelain := "  \n", headHash := "cccccccc",
    commitExists := true, porcelainAfterRestore := "",
    newHeadAfterCommit := "cccccccc",
    pushSucceeds := true, gitErrorMessage := "exec failed" }

/-- A review request still in status `open`. -/
def reviewOpenRec : ReviewRecord :=
  { status := ReviewStatus.open_, quotedPriceCents := none, approvedAt := none, updatedAt := 0 }

/-- A review request that has been quoted. -/
def reviewQuotedRec : ReviewRecord :=
  { status := ReviewStatus.quoted, quotedPriceCents := some 5000, approvedAt := none, updatedAt := 0 }

/- ===================== Helper lemmas ===================== -/

/-- Two strings differ when one is an append whose first character differs
from the other's first character. -/
theorem append_ne_of_head_ne (a b p : String) (c d : Char) (la lb : List Char)
    (ha : a.data = c :: la) (hb : b.data = d :: lb) (hcd : c ≠ d) :
    a ++ p ≠ b := by
  intro h
  have hd := congrArg String.data h
  rw [String.data_append, ha, hb, List.cons_append] at hd
  injection hd with h1 h2
  exact hcd h1

/-- The content checks can never produce the `agent_execution_error` trigger:
every trigger they emit starts with "major_intent:", "high_risk_file:" or is
"wide_file_change_set". -/
theorem aee_not_mem_contentTriggers (nr : String) (fm : List String) :
    "agent_execution_error" ∉ contentTriggers nr fm := by
  intro hmem
  unfold contentTriggers at hmem
  simp only [List.mem_append] at hmem
  rcases hmem with (hmem | hmem) | hmem
  · rcases hf : MAJOR_REQUEST_PATTERNS.find? (fun p => testWordAlts p.alts nr) with _ | p
    · rw [hf] at hmem; simp at hmem
    · rw [hf] at hmem
      simp only [List.mem_singleton] at hmem
      exact append_ne_of_head_ne "major_intent:" "agent_execution_error" p.source
        'm' 'a' "ajor_intent:".data "gent_execution_error".data rfl rfl (by decide) hmem.symm
  · by_cases hw : fm.length > 8
    · simp [hw] at hmem
    · simp [hw] at hmem
  · rcases hf : fm.find? isHighRiskFile with _ | path
    · rw [hf] at hmem; simp at hmem
    · rw [hf] at hmem
      simp only [List.mem_singleton] at hmem
      exact append_ne_of_head_ne "high_risk_file:" "agent_execution_error" path
        'h' 'a' "igh_risk_file:".data "gent_execution_error".data rfl rfl (by decide) hmem.symm

/-- Boolean form of `aee_not_mem_contentTriggers`. -/
theorem contentTriggers_contains_aee (nr : String) (fm : List String) :
    (contentTriggers nr fm).contains "agent_execution_error" = false := by
  have h := aee_not_mem_contentTriggers nr fm
  simpa using h

/-- A thrown `startSpawn` error is an install failure or a readiness timeout,
and in both cases the record it leaves behind has status `starting`. -/
theorem startSpawn_err (env : StartEnv) (port : Nat) (e : StartError)
    (h : (startSpawn env port).1 = .err e) :
    (e = .dependencyInstallFailed ∨ e = .devServerNotReady) ∧
    ∃ r, (startSpawn env port).2 = some r ∧ r.status = DevStatus.starting := by
  by_cases hc : (env.isNodeProject && env.nodeModulesMissing && !env.installSucceeds) = true
  · simp [startSpawn, hc] at h ⊢
    simp_all
  · by_cases hr : env.becomesReady = true
    · simp [startSpawn, hc, hr] at h
    · simp [startSpawn, hc, hr] at h ⊢
      simp_all

/-- A successful `startSpawn` reports the very port it was given, with result
status "started". -/
theorem startSpawn_ok (env : StartEnv) (port p : Nat) (s : String)
    (h : (startSpawn env port).1 = .ok p s) : p = port ∧ s = "started" := by
  by_cases hc : (env.isNodeProject && env.nodeModulesMissing && !env.installSucceeds) = true
  · simp [startSpawn, hc] at h
  · by_cases hr : env.becomesReady = true
    · simp [startSpawn, hc, hr] at h
      exact ⟨h.1.symm, h.2.symm⟩
    · simp [startSpawn, hc, hr] at h

/-- Error disposition of `startWithPort`: allocation errors leave the record
unchanged, while install/readiness errors leave a `starting` record. -/
theorem startWithPort_err (env : StartEnv) (dbRec : Option DevServerRecord) (e : StartError)
    (h : (startWithPort env dbRec).1 = .err e) :
    ((e = .dependencyInstallFailed ∨ e = .devServerNotReady) ∧
      ∃ r, (startWithPort env dbRec).2 = some r ∧ r.status = DevStatus.starting) ∨
    ((e = .portOutOfRange ∨ e = .portInUse ∨ e = .noFreePorts) ∧
      (startWithPort env dbRec).2 = dbRec) := by
  rcases htp : truthyPort env.stagingPort with _ | desired
  · rcases hfs : env.freeScanResult with _ | p
    · right
      simp [startWithPort, htp, hfs] at h ⊢
      simp_all
    · left
      simp only [startWithPort, htp, hfs] at h ⊢
      exact startSpawn_err env p e h
  · by_cases hrange : (decide (desired < env.rangeStart) || decide (env.rangeEnd < desired)) = true
    · right
      simp [startWithPort, htp, hrange] at h ⊢
      simp_all
    · by_cases hreach : env.portReachable desired = true
      · right
        simp [startWithPort, htp, hrange, hreach] at h ⊢
        simp_all
      · left
        simp only [startWithPort, htp] at h ⊢
        rw [if_neg (by simp_all), if_neg (by simp_all)] at h ⊢
        exact startSpawn_err env desired e h

/-- Error disposition of `startRecheck` (same as `startWithPort`; the
re-check branch itself never throws). -/
theorem startRecheck_err (env : StartEnv) (dbRec : Option DevServerRecord) (e : StartError)
    (h : (startRecheck env dbRec).1 = .err e) :
    ((e = .dependencyInstallFailed ∨ e = .devServerNotReady) ∧
      ∃ r, (startRecheck env dbRec).2 = some r ∧ r.status = DevStatus.starting) ∨
    ((e = .portOutOfRange ∨ e = .portInUse ∨ e = .noFreePorts) ∧
      (startRecheck env dbRec).2 = dbRec) := by
  rcases dbRec with _ | r2
  · simp only [startRecheck] at h ⊢
    exact startWithPort_err env none e h
  · by_cases hs : r2.status = DevStatus.running
    · simp [startRecheck, hs] at h
    · simp only [startRecheck] at h ⊢
      rw [if_neg hs] at h ⊢
      exact startWithPort_err env (some r2) e h

/- ===================== Claim theorems ===================== -/

/-- C1: whenever `agentHadError = true`, the triage result is exactly the
flag/uncertain/0.97 record with the single trigger `agent_execution_error`,
regardless of all other input fields, and in particular the decision is
never `auto`. -/
theorem triage_agent_error_always_flags (input : EvaluateInput)
    (h : input.agentHadError = true) :
    evaluate input =
      { decision := TriageDecision.flag
        scope := TriageScope.uncertain
        confidence := 97/100
        reason := "The assistant encountered an error and could not complete the request cleanly, so manual review is required."
        triggers := ["agent_execution_error"]
        policyVersion := "v1" } ∧
    (evaluate input).decision ≠ TriageDecision.auto := by
  constructor
  · simp [evaluate, h]
  · simp [evaluate, h]

/-- Witness for C1 at a concrete input with an agent error. -/
theorem triage_agent_error_always_flags_witness :
    inputAgentError.agentHadError = true ∧
    (evaluate inputAgentError).decision ≠ TriageDecision.auto :=
  ⟨rfl, (triage_agent_error_always_flags inputAgentError rfl).2⟩

/-- C2 counterexample: a start whose readiness poll times out throws
`DevServerNotReady` but leaves the persisted record at status `starting`
(with the spawned pid), not in a terminal `error`/`stopped` state. -/
theorem start_ready_timeout_leaves_starting :
    (start envReadyTimeout).1 = StartOutcome.err StartError.devServerNotReady ∧
    (start envReadyTimeout).2 =
      some { port := 3005, pid := some 444, status := DevStatus.starting,
             startedAt := 100, lastActivity := 100 } :=
  ⟨rfl, rfl⟩

/-- C2 (amended): a failed start leaves the persisted record at `starting`
exactly when the failure is a dependency-install failure or a readiness
timeout; every other failure leaves the record as it was, except that a
stale `running` record may first have been reconciled to `stopped`. -/
theorem start_failure_record_disposition (env : StartEnv) (e : StartError)
    (h : (start env).1 = .err e) :
    (e = .dependencyInstallFailed ∨ e = .devServerNotReady →
      ∃ r, (start env).2 = some r ∧ r.status = DevStatus.starting) ∧
    (¬(e = .dependencyInstallFailed ∨ e = .devServerNotReady) →
      (start env).2 = env.record ∨
      ∃ r0, env.record = some r0 ∧ r0.status = DevStatus.running ∧
        (start env).2 = some { r0 with status := DevStatus.stopped, pid := none }) := by
  by_cases hf : env.startInFlight = true
  · simp [start, hf] at h ⊢
    cases h
    simp
  · by_cases hc : env.customerExists = true
    · by_cases hs : env.siteExists = true
      · rcases hrec : env.record with _ | r
        · have hst : start env = startRecheck env none := by
            simp [start, hf, hc, hs, hrec]
          rw [hst] at h ⊢
          rcases startRecheck_err env none e h with ⟨he, hr⟩ | ⟨he, hr⟩
          · exact ⟨fun _ => hr, fun hcontra => absurd he hcontra⟩
          · refine ⟨fun hin => ?_, fun _ => Or.inl hr⟩
            rcases he with he | he | he <;> simp [he] at hin
        · by_cases hstart : r.status = DevStatus.starting
          · have : (start env).1 = .ok r.port "starting" := by
              simp [start, hf, hc, hs, hrec, hstart]
            rw [this] at h
            simp at h
          · by_cases hrun : r.status = DevStatus.running
            · by_cases hlive : (aliveIfTruthy env.processAlive r.pid && env.portReachable r.port) = true
              · have : (start env).1 = .ok r.port "already_running" := by
                  simp [start, hf, hc, hs, hrec, hstart, hrun, hlive]
                rw [this] at h
                simp at h
              · have hst : start env =
                    startRecheck env (some { r with status := DevStatus.stopped, pid := none }) := by
                  simp only [start, hrec]
                  simp only [Bool.not_eq_true] at hf
                  rw [if_neg (by simp [hf]), if_neg (by simp [hc]), if_neg (by simp [hs]),
                    if_neg hstart, if_pos hrun, if_neg (by simp_all)]
                rw [hst] at h ⊢
                rcases startRecheck_err env (some { r with status := DevStatus.stopped, pid := none }) e h with
                  ⟨he, hr⟩ | ⟨he, hr⟩
                · exact ⟨fun _ => hr, fun hcontra => absurd he hcontra⟩
                · refine ⟨fun hin => ?_, fun _ => Or.inr ⟨r, rfl, hrun, hr⟩⟩
                  rcases he with he | he | he <;> simp [he] at hin
            · have hst : start env = startRecheck env (some r) := by
                simp only [start, hrec]
                simp only [Bool.not_eq_true] at hf
                rw [if_neg (by simp [hf]), if_neg (by simp [hc]), if_neg (by simp [hs]),
                  if_neg hstart, if_neg hrun]
              rw [hst] at h ⊢
              rcases startRecheck_err env (some r) e h with ⟨he, hr⟩ | ⟨he, hr⟩
              · exact ⟨fun _ => hr, fun hcontra => absurd he hcontra⟩
              · refine ⟨fun hin => ?_, fun _ => Or.inl hr⟩
                rcases he with he | he | he <;> simp [he] at hin
      · simp [start, hf, hc, hs] at h ⊢
        cases h
        simp
    · simp [start, hf, hc] at h ⊢
      cases h
      simp

/-- Witness for C2 (amended) at the concrete readiness-timeout environment. -/
theorem start_failure_record_disposition_witness :
    (start envReadyTimeout).1 = StartOutcome.err StartError.devServerNotReady ∧
    (∃ r, (start envReadyTimeout).2 = some r ∧ r.status = DevStatus.starting) :=
  ⟨rfl, (start_failure_record_disposition envReadyTimeout StartError.devServerNotReady rfl).1
    (Or.inr rfl)⟩

/-- C3 counterexample: the admin status endpoint performs no transition
check — it moves a review request from `open` straight to `approved` with a
successful update, rather than failing. -/
theorem admin_status_update_unguarded :
    reviewOpenRec.status = ReviewStatus.open_ ∧
    adminSetStatus (some reviewOpenRec) (some "approved") 10 =
      (AdminStatusOutcome.updated,
        some { status := ReviewStatus.approved, quotedPriceCents := none,
               approvedAt := none, updatedAt := 10 }) :=
  ⟨rfl, rfl⟩

/-- C3 (amended): the customer approve endpoint succeeds exactly from status
`quoted` and otherwise fails with the 400 "Only quoted requests can be
approved" error leaving the record unchanged, while the admin status
endpoint updates to any recognised status unconditionally. -/
theorem review_approve_transition_rules (r : ReviewRecord) (now : Nat) :
    ((customerApprove (some r) now).1 = ApproveOutcome.approvedOk ↔
      r.status = ReviewStatus.quoted) ∧
    (r.status ≠ ReviewStatus.quoted →
      customerApprove (some r) now = (ApproveOutcome.onlyQuotedError, some r)) ∧
    (r.status = ReviewStatus.quoted →
      customerApprove (some r) now =
        (ApproveOutcome.approvedOk,
          some { r with
                 status := ReviewStatus.approved
                 approvedAt := some now
                 updatedAt := now })) ∧
    (∀ s st, parseStatus s = some st →
      adminSetStatus (some r) (some s) now =
        (AdminStatusOutcome.updated, some { r with status := st, updatedAt := now })) := by
  refine ⟨?_, ?_, ?_, ?_⟩
  · by_cases h : r.status = ReviewStatus.quoted
    · simp [customerApprove, h]
    · simp [customerApprove, h]
  · intro h
    simp [customerApprove, h]
  · intro h
    simp [customerApprove, h]
  · intro s st hp
    simp [adminSetStatus, hp]

/-- Witness for C3 (amended): approve succeeds from `quoted` and fails from
`open` with the record unchanged. -/
theorem review_approve_transition_rules_witness :
    customerApprove (some reviewQuotedRec) 3 =
      (ApproveOutcome.approvedOk,
        some { status := ReviewStatus.approved, quotedPriceCents := some 5000,
               approvedAt := some 3, updatedAt := 3 }) ∧
    customerApprove (some reviewOpenRec) 3 = (ApproveOutcome.onlyQuotedError, some reviewOpenRec) :=
  ⟨(review_approve_transition_rules reviewQuotedRec 3).2.2.1 rfl,
   (review_approve_transition_rules reviewOpenRec 3).2.1 (by decide)⟩

/-- C4 counterexample: `getStatus` advances a `starting` record to `running`
as soon as the port answers, even though the tracked process (pid 7) is not
alive — so a returned `running` does not imply the tracked process is
alive. -/
theorem getStatus_starting_advances_with_dead_pid :
    (getStatus worldDeadButReachable 5 (some recStarting3005)).1 =
      some { port := 3005, pid := some 7, status := DevStatus.running,
             startedAt := 0, lastActivity := 5 } ∧
    worldDeadButReachable.processAlive 7 = false :=
  ⟨rfl, rfl⟩

/-- C4 (amended): a persisted `running` record is returned unchanged exactly
when the process is alive and the port answers, and is demoted to `stopped`
with pid cleared otherwise; a `starting` record is advanced to `running`
whenever the port answers (regardless of process liveness) and to `error`
with pid cleared when the port does not answer and the process is dead. -/
theorem getStatus_reconciliation_rules (w : OsWorld) (now : Nat) (r : DevServerRecord) :
    (r.status = DevStatus.running →
      ((aliveIfTruthy w.processAlive r.pid && w.portReachable r.port) = true →
        getStatus w now (some r) = (some r, some r)) ∧
      ((aliveIfTruthy w.processAlive r.pid && w.portReachable r.port) = false →
        getStatus w now (some r) =
          (some { r with status := DevStatus.stopped, pid := none },
            some { r with status := DevStatus.stopped, pid := none }))) ∧
    (r.status = DevStatus.starting →
      (w.portReachable r.port = true →
        getStatus w now (some r) =
          (some { r with status := DevStatus.running, lastActivity := now },
            some { r with status := DevStatus.running, lastActivity := now })) ∧
      (w.portReachable r.port = false → aliveIfTruthy w.processAlive r.pid = false →
        getStatus w now (some r) =
          (some { r with status := DevStatus.error, pid := none },
            some { r with status := DevStatus.error, pid := none }))) := by
  constructor
  · intro hrun
    have hnstart : ¬r.status = DevStatus.starting := by simp [hrun]
    constructor
    · intro halive
      rw [Bool.and_eq_true] at halive
      simp [getStatus, hnstart, hrun, halive.1, halive.2]
    · intro halive
      rcases Bool.and_eq_false_iff.mp halive with ha | ha
      · simp [getStatus, hnstart, hrun, ha]
      · simp [getStatus, hnstart, hrun, ha]
  · intro hstart
    constructor
    · intro hreach
      simp [getStatus, hstart, hreach]
    · intro hreach halive
      simp [getStatus, hstart, hreach, halive]

/-- Witness for C4 (amended): a live, reachable `running` record is returned
unchanged. -/
theorem getStatus_reconciliation_rules_witness :
    getStatus worldAliveReachable 9 (some recRunning3005) =
      (some recRunning3005, some recRunning3005) :=
  ((getStatus_reconciliation_rules worldAliveReachable 9 recRunning3005).1 rfl).1 rfl

/-- C5 counterexample: with the customer's own server already live on its
fixed port, the port answers the probe yet `start` returns
`already_running` instead of failing with `PortInUse` — the "fails iff the
port answers" biconditional does not hold unconditionally. -/
theorem fixed_port_live_server_not_port_in_use :
    envFixedPortLive.stagingPort = some 3005 ∧
    envFixedPortLive.portReachable 3005 = true ∧
    (start envFixedPortLive).1 = StartOutcome.ok 3005 "already_running" ∧
    (start envFixedPortLive).1 ≠ StartOutcome.err StartError.portInUse :=
  ⟨rfl, rfl, rfl, by decide⟩

/-- Once a port has been allocated for a fixed-port customer, `startWithPort`
fails with `PortInUse` exactly when the probe answers, and any success is a
fresh "started" on exactly the fixed port. -/
theorem startWithPort_fixed (env : StartEnv) (dbRec : Option DevServerRecord) (d : Nat)
    (hfixed : truthyPort env.stagingPort = some d)
    (hlo : env.rangeStart ≤ d) (hhi : d ≤ env.rangeEnd) :
    ((startWithPort env dbRec).1 = .err .portInUse ↔ env.portReachable d = true) ∧
    (∀ p s, (startWithPort env dbRec).1 = .ok p s → p = d ∧ s = "started") := by
  have hrange : (decide (d < env.rangeStart) || decide (env.rangeEnd < d)) = false := by
    simp [Nat.not_lt.mpr hlo, Nat.not_lt.mpr hhi]
  by_cases hreach : env.portReachable d = true
  · constructor
    · simp [startWithPort, hfixed, hrange, hreach]
    · intro p s hok
      simp [startWithPort, hfixed, hrange, hreach] at hok
  · have hred : startWithPort env dbRec = startSpawn env d := by
      simp only [startWithPort, hfixed]
      rw [if_neg (by simp [hrange]), if_neg hreach]
    rw [hred]
    constructor
    · constructor
      · intro hpiu
        exfalso
        rcases startSpawn_err env d _ hpiu with ⟨he, _⟩
        rcases he with he | he <;> simp at he
      · intro hr
        exact absurd hr hreach
    · intro p s hok
      exact startSpawn_ok env d p s hok

/-- C5 (amended): for a fixed-port customer whose start call actually reaches
port allocation (no start already in flight, customer and site exist, the
existing record is neither `starting` nor a live `running`) and whose fixed
port lies in the configured range, `start` fails with `PortInUse` exactly
when something answers on the fixed port, and any successful fresh start
binds exactly the fixed port. -/
theorem start_fixed_port_allocation (env : StartEnv) (d : Nat)
    (hflight : env.startInFlight = false)
    (hcust : env.customerExists = true)
    (hsite : env.siteExists = true)
    (hfixed : truthyPort env.stagingPort = some d)
    (hlo : env.rangeStart ≤ d) (hhi : d ≤ env.rangeEnd)
    (hrec : ∀ r, env.record = some r →
      r.status ≠ DevStatus.starting ∧
      (r.status = DevStatus.running →
        (aliveIfTruthy env.processAlive r.pid && env.portReachable r.port) = false)) :
    ((start env).1 = .err .portInUse ↔ env.portReachable d = true) ∧
    (∀ p s, (start env).1 = .ok p s → p = d ∧ s = "started") := by
  have hst : ∃ dbRec, start env = startWithPort env dbRec := by
    rcases hr : env.record with _ | r
    · refine ⟨none, ?_⟩
      simp [start, hr, hflight, hcust, hsite, startRecheck]
    · obtain ⟨hnstart, hstale⟩ := hrec r hr
      by_cases hrun : r.status = DevStatus.running
      · refine ⟨some { r with status := DevStatus.stopped, pid := none }, ?_⟩
        simp [start, hr, hflight, hcust, hsite, hnstart, hrun, hstale hrun, startRecheck]
      · refine ⟨some r, ?_⟩
        simp [start, hr, hflight, hcust, hsite, hnstart, hrun, startRecheck]
  obtain ⟨dbRec, hsw⟩ := hst
  rw [hsw]
  exact startWithPort_fixed env dbRec d hfixed hlo hhi

/-- Witness for C5 (amended): with port 3005 free, start does not fail with
`PortInUse` (the biconditional instantiates to false ↔ false) and in fact
starts on exactly port 3005. -/
theorem start_fixed_port_allocation_witness :
    ((start envFixedPortFree).1 = StartOutcome.err StartError.portInUse ↔
      envFixedPortFree.portReachable 3005 = true) ∧
    (start envFixedPortFree).1 = StartOutcome.ok 3005 "started" :=
  ⟨(start_fixed_port_allocation envFixedPortFree 3005 rfl rfl rfl rfl (by decide) (by decide)
      (fun r hr => nomatch hr)).1, rfl⟩

/-- C6 counterexample: a rollback on a dirty tree with a malformed target
hash fails with "Invalid commit hash", not with the blocked-by-local-changes
error — the hash-format guard runs before the dirty-tree guard. -/
theorem rollback_dirty_with_invalid_hash :
    (jsTrim gitDirty.porcelain == "") = false ∧
    rollbackToCommit gitDirty "not-a-hash" =
      (⟨false, "Invalid commit hash", none, none, none⟩, []) :=
  ⟨rfl, rfl⟩

/-- C6 (amended): for a well-formed target hash, a rollback on a dirty tree
fails with the blocked-by-local-changes error and performs no git mutation,
and a rollback whose target is the current HEAD is a mutation-free no-op
with the explicit "already current" message. -/
theorem rollback_guard_rules (g : GitRepoState) (target : String)
    (hvalid : (decide (target = "") || !isValidCommitHash target) = false) :
    ((jsTrim g.porcelain == "") = false →
      rollbackToCommit g target =
        (⟨false, "Rollback is blocked because there are unpublished local changes. Publish or clear local changes first.",
          none, none, none⟩, [])) ∧
    ((jsTrim g.porcelain == "") = true → g.commitExists = true → g.headHash = target →
      rollbackToCommit g target =
        (⟨false, "This version is already current. Nothing to roll back.",
          none, none, none⟩, [])) := by
  constructor
  · intro hdirty
    simp [rollbackToCommit, hvalid, hdirty]
  · intro hclean hce hhead
    simp [rollbackToCommit, hvalid, hclean, hce, hhead]

/-- Witness for C6 (amended) on a dirty repo and on a clean repo at HEAD. -/
theorem rollback_guard_rules_witness :
    rollbackToCommit gitDirty "0123abc" =
      (⟨false, "Rollback is blocked because there are unpublished local changes. Publish or clear local changes first.",
        none, none, none⟩, []) ∧
    rollbackToCommit gitCleanAtHead "0123abc" =
      (⟨false, "This version is already current. Nothing to roll back.",
        none, none, none⟩, []) :=
  ⟨(rollback_guard_rules gitDirty "0123abc" (by decide)).1 rfl,
   (rollback_guard_rules gitCleanAtHead "0123abc" (by decide)).2 rfl rfl rfl⟩

/-- C7: publishing with a clean working tree (empty trimmed porcelain
output) returns `success=false` with message "No changes to publish" and
performs no stage, commit or push. -/
theorem publish_clean_tree_noop (g : GitRepoState)
    (hclean : (jsTrim g.porcelain == "") = true) :
    publish g = (⟨false, "No changes to publish", none, none, none⟩, []) := by
  simp [publish, hclean]

/-- Witness for C7 on a repo whose porcelain output is whitespace-only. -/
theorem publish_clean_tree_noop_witness :
    publish gitCleanPublish = (⟨false, "No changes to publish", none, none, none⟩, []) :=
  publish_clean_tree_noop gitCleanPublish rfl

/-- C8: on request "fix typo in footer" touching `src/server/routes/auth.ts`
with a clean agent run, triage flags with scope `major`, confidence 0.84 and
exactly the trigger `high_risk_file:src/server/routes/auth.ts` (the path
matches the server/routes directory patterns although the request text
matches no major-intent pattern). -/
theorem triage_high_risk_file_scenario :
    evaluate inputHighRisk =
      { decision := TriageDecision.flag
        scope := TriageScope.major
        confidence := 84/100
        reason := "This request exceeds the safe auto-edit policy and should be reviewed before billing and implementation."
        triggers := ["high_risk_file:src/server/routes/auth.ts"]
        policyVersion := "v1" } ∧
    "high_risk_file:src/server/routes/auth.ts" ∈ (evaluate inputHighRisk).triggers := by
  constructor
  · rfl
  · rw [(rfl :
      (evaluate inputHighRisk).triggers = ["high_risk_file:src/server/routes/auth.ts"])]
    exact List.mem_singleton.mpr rfl

/-- C9: every flag produced by the content checks has scope `major` and
confidence exactly 0.84 (the uncertain-class escalation in the
combined-trigger branch is unreachable, since an `agent_execution_error`
input returns earlier), and every result with scope `uncertain` carries
exactly one trigger, drawn from agent_execution_error /
agent_incomplete_no_edits / empty_request. -/
theorem triage_scope_confidence_invariant (input : EvaluateInput) :
    ((evaluate input).scope = TriageScope.uncertain →
      (evaluate input).triggers = ["agent_execution_error"] ∨
      (evaluate input).triggers = ["agent_incomplete_no_edits"] ∨
      (evaluate input).triggers = ["empty_request"]) ∧
    ((evaluate input).decision = TriageDecision.flag →
      (evaluate input).scope ≠ TriageScope.uncertain →
      (evaluate input).scope = TriageScope.major ∧ (evaluate input).confidence = 84/100) ∧
    ("agent_execution_error" ∈ (evaluate input).triggers →
      (evaluate input).triggers = ["agent_execution_error"]) := by
  by_cases h1 : input.agentHadError
  · simp [evaluate, h1]
  · by_cases h2 : (!input.agentCompletedSuccessfully && (input.filesModified.getD []).length == 0)
    · simp [evaluate, h1, h2]
    · by_cases h3 : (jsTrim input.request == "")
      · simp [evaluate, h1, h2, h3]
      · have hc := contentTriggers_contains_aee (jsTrim input.request) (input.filesModified.getD [])
        have hm := aee_not_mem_contentTriggers (jsTrim input.request) (input.filesModified.getD [])
        by_cases h4 : (contentTriggers (jsTrim input.request) (input.filesModified.getD [])).length > 0
        · simp [evaluate, h1, h2, h3, h4, hc, hm]
        · simp [evaluate, h1, h2, h3, h4]
          intro hmm
          exact absurd hmm hm

/-- Witness for C9 at two concrete inputs: an agent-error input lands in the
uncertain class with its single trigger, and the high-risk-file input lands
in the content-check class with scope `major` and confidence 0.84. -/
theorem triage_scope_confidence_invariant_witness :
    ((evaluate inputAgentError).triggers = ["agent_execution_error"] ∨
      (evaluate inputAgentError).triggers = ["agent_incomplete_no_edits"] ∨
      (evaluate inputAgentError).triggers = ["empty_request"]) ∧
    ((evaluate inputHighRisk).scope = TriageScope.major ∧
      (evaluate inputHighRisk).confidence = 84/100) :=
  ⟨(triage_scope_confidence_invariant inputAgentError).1 rfl,
   (triage_scope_confidence_invariant inputHighRisk).2.1 rfl (by decide)⟩

/-- C10: when the persisted record says `running` with a non-null pid but no
in-memory child-process handle exists (the post-restart situation), `stop`
issues no kill to the OS and only updates the record to `stopped` with the
pid cleared, returning status "stopped". -/
theorem stop_without_handle_issues_no_kill (server : DevServerRecord)
    (_hstat : server.status = DevStatus.running) (_hpid : server.pid ≠ none) :
    stop false (some server) =
      ⟨"stopped", some { server with status := DevStatus.stopped, pid := none }, false⟩ := by
  by_cases h : (pidTruthy server.pid && server.status == DevStatus.running) = true
  · simp [stop, h]
  · simp [stop, h]

/-- Witness for C10 on a `running` record with pid 7 and no handle. -/
theorem stop_without_handle_issues_no_kill_witness :
    stop false (some recRunning3005) =
      ⟨"stopped", some { recRunning3005 with status := DevStatus.stopped, pid := none }, false⟩ :=
  stop_without_handle_issues_no_kill recRunning3005 rfl (by decide)
